import Mathlib

/-!
# Frame delivery adapter: `oak_webcodecs_example.js` and `oak_direct_stream_example.js`

A shallow embedding of the two JavaScript files.  Objects are records, every
method takes the object and returns the object it leaves behind, the list of
platform calls it made (in program order) and its completion: `.ok v` for a
normal return, `.error e` for an exception that leaves the method.

The browser objects the code drives are not part of the repository.  Their
outcomes are parameters (`Platform`, `DirectEnv`, `DirectPlatform`) wherever
the standards leave them open, and follow the standards where they are fixed:

* `DataView.prototype.getUint32` throws a `RangeError` when
  `byteOffset + 4` exceeds the view length (ECMAScript, GetViewValue);
* `WritableStreamDefaultWriter.write` and `.close` return promises and never
  throw; a write issued after `close()` is rejected and the chunk is not
  enqueued (Streams standard);
* `VideoEncoder.close()` throws `InvalidStateError` when the codec state is
  already `closed` (WebCodecs, Reset VideoEncoder step 1);
* reading a property of `null` throws a `TypeError`.
-/

namespace OAK

/-! ## Bytes, `ArrayBuffer` and `DataView` -/

/-- One octet of an `ArrayBuffer`. -/
abbrev Byte := Fin 256

/-- JavaScript exceptions that occur in the two files. -/
inductive JsError where
  | RangeError
  | TypeError
  | ReferenceError
  | InvalidStateError
  | NotAllowedError
  | Error (message : String)
  deriving DecidableEq, Repr

/-- Completions can be compared when errors and values can. -/
instance instDecidableEqExcept {ε α : Type} [DecidableEq ε] [DecidableEq α] :
    DecidableEq (Except ε α) := fun a b =>
  match a, b with
  | .ok x, .ok y => if h : x = y then isTrue (by rw [h]) else isFalse (by simpa using h)
  | .error x, .error y => if h : x = y then isTrue (by rw [h]) else isFalse (by simpa using h)
  | .ok _, .error _ => isFalse (by simp)
  | .error _, .ok _ => isFalse (by simp)

/-- The call `dataView.getUint32(byteOffset, littleEndian)` on a view that
covers the whole buffer `buf`. -/
def getUint32 (buf : List Byte) (byteOffset : Nat) (littleEndian : Bool) :
    Except JsError Nat :=
  if byteOffset + 4 ≤ buf.length then
    let b0 := (buf.getD byteOffset 0).val
    let b1 := (buf.getD (byteOffset + 1) 0).val
    let b2 := (buf.getD (byteOffset + 2) 0).val
    let b3 := (buf.getD (byteOffset + 3) 0).val
    if littleEndian then
      .ok (b0 + 256 * b1 + 65536 * b2 + 16777216 * b3)
    else
      .ok (b3 + 256 * b2 + 65536 * b1 + 16777216 * b0)
  else
    .error .RangeError

/-- The call `arrayBuffer.slice(begin)` for a non-negative `begin`: a fresh
buffer holding the bytes from `begin` to the end. -/
def slice (buf : List Byte) (begin : Nat) : List Byte :=
  buf.drop begin

/-- The four bytes that encode the unsigned 32-bit value `n`, least
significant byte first.  This is the sender side of the wire format, used only
to state what a well-formed header is. -/
def le32 (n : Nat) : List Byte :=
  [⟨n % 256, Nat.mod_lt _ (by decide)⟩,
   ⟨n / 256 % 256, Nat.mod_lt _ (by decide)⟩,
   ⟨n / 65536 % 256, Nat.mod_lt _ (by decide)⟩,
   ⟨n / 16777216 % 256, Nat.mod_lt _ (by decide)⟩]

/-! ## Platform objects -/

/-- An `ImageBitmap` produced by `createImageBitmap`. -/
structure ImageBitmap where
  width : Nat
  height : Nat
  pixels : List Byte
  deriving DecidableEq, Repr

/-- What a `VideoFrame` was constructed from: a raw buffer with the init
dictionary of `processRawFrame` (`format: RGBA`, coded size), or a bitmap. -/
inductive FrameSource where
  | rgba (data : List Byte) (codedWidth codedHeight : Nat)
  | bitmap (image : ImageBitmap)
  deriving DecidableEq, Repr

/-- A `VideoFrame` object. `timestamp` is in microseconds. -/
structure VideoFrame where
  source : FrameSource
  timestamp : Nat
  deriving DecidableEq, Repr

/-- State of a `WritableStreamDefaultWriter` on the generator track:
whether `close()` has been requested and the frames the track accepted. -/
structure Writer where
  closed : Bool
  chunks : List VideoFrame
  deriving DecidableEq, Repr

/-- The `state` attribute of a `VideoEncoder`. -/
inductive CodecState where
  | unconfigured
  | configured
  | closed
  deriving DecidableEq, Repr

/-- State of a `MediaStreamTrackGenerator`: whether `stop()` was called. -/
structure TrackGenerator where
  stopped : Bool
  deriving DecidableEq, Repr

/-- A track of a `MediaStream`: the video track of the dummy canvas capture,
an audio track of the microphone stream, or the generator track. -/
inductive Track where
  | canvasVideo
  | audio (index : Nat)
  | generator
  deriving DecidableEq, Repr

/-- Platform calls made by the code, recorded in program order. -/
inductive Call where
  | newMediaStreamTrackGenerator
  | getWriter
  | newVideoEncoder
  | encoderConfigure (codec : String) (width height bitrate framerate : Nat)
  | newVideoFrame (source : FrameSource) (timestamp : Nat)
  | writerWrite (frame : VideoFrame)
  | frameClose (frame : VideoFrame)
  | bitmapClose (image : ImageBitmap)
  | createImageBitmap (blob : List Byte)
  | writerClose
  | encoderClose
  | generatorStop
  | consoleLog (message : String)
  | consoleError (message : String) (error : JsError)
  | log (message : String)
  | logError (message : String) (error : JsError)
  | createCanvas (width height : Nat)
  | captureStream (frameRate : Nat)
  | getUserMedia
  | assignLocalStream (tracks : List Track)
  | removeTrack (track : Track)
  | addTrack (track : Track)
  | setOnmessage
  | startOAKVideoCanvasMethod
  deriving DecidableEq, Repr

/-- The `data` of a WebSocket message event. -/
inductive MessageData where
  | blob (bytes : List Byte)
  | arrayBuffer (bytes : List Byte)
  | text (s : String)
  | other
  deriving DecidableEq, Repr

/-! ## `oak_webcodecs_example.js` -/

/-- The fields of an `OAKWebCodecsStream` object; `none` is `null`. -/
structure OAKWebCodecsStream where
  encoder : Option CodecState
  decoder : Option Unit
  trackGenerator : Option TrackGenerator
  writer : Option Writer
  deriving DecidableEq, Repr

/-- What a method leaves behind: the object, the platform calls it made and
its completion. -/
structure Outcome (α : Type) where
  obj : OAKWebCodecsStream
  trace : List Call
  result : Except JsError α

/-- The parts of the browser that `OAKWebCodecsStream` depends on.  The three
flags are the truthiness of `window.VideoEncoder`, `window.VideoDecoder` and
`window.MediaStreamTrackGenerator`; the other fields give the exception each
constructor or call raises, `none` when it succeeds. -/
structure Platform where
  hasVideoEncoder : Bool
  hasVideoDecoder : Bool
  hasMediaStreamTrackGenerator : Bool
  generatorCtorError : Option JsError
  getWriterError : Option JsError
  encoderCtorError : Option JsError
  configureError : Option JsError
  videoFrameError : List Byte → Nat → Nat → Option JsError

/-- The `constructor()` of lines 5-10. -/
def constructor : OAKWebCodecsStream :=
  { encoder := none, decoder := none, trackGenerator := none, writer := none }

/-- The `try` block of `initialize()`, lines 14-43. -/
def initializeTry (P : Platform) (s : OAKWebCodecsStream) : Outcome Bool :=
  if !P.hasVideoEncoder || !P.hasVideoDecoder || !P.hasMediaStreamTrackGenerator then
    { obj := s, trace := [], result := .error (.Error "WebCodecs not supported") }
  else
    match P.generatorCtorError with
    | some e => { obj := s, trace := [.newMediaStreamTrackGenerator], result := .error e }
    | none =>
      let s1 := { s with trackGenerator := some { stopped := false } }
      match P.getWriterError with
      | some e =>
        { obj := s1, trace := [.newMediaStreamTrackGenerator, .getWriter], result := .error e }
      | none =>
        let s2 := { s1 with writer := some { closed := false, chunks := [] } }
        match P.encoderCtorError with
        | some e =>
          { obj := s2
            trace := [.newMediaStreamTrackGenerator, .getWriter, .newVideoEncoder]
            result := .error e }
        | none =>
          let s3 := { s2 with encoder := some .unconfigured }
          match P.configureError with
          | some e =>
            { obj := s3
              trace := [.newMediaStreamTrackGenerator, .getWriter, .newVideoEncoder,
                        .encoderConfigure "vp8" 1280 720 2000000 30]
              result := .error e }
          | none =>
            { obj := { s3 with encoder := some .configured }
              trace := [.newMediaStreamTrackGenerator, .getWriter, .newVideoEncoder,
                        .encoderConfigure "vp8" 1280 720 2000000 30,
                        .consoleLog "✅ WebCodecs stream initialized"]
              result := .ok true }

/-- The method `initialize()`, lines 12-49: the `try` block, and the `catch`
that logs the error and returns `false`. -/
def initializeStream (P : Platform) (s : OAKWebCodecsStream) : Outcome Bool :=
  let r := initializeTry P s
  match r.result with
  | .ok b => { obj := r.obj, trace := r.trace, result := .ok b }
  | .error e =>
    { obj := r.obj
      trace := r.trace ++ [.consoleError "❌ WebCodecs initialization failed:" e]
      result := .ok false }

/-- The `try` block of `processRawFrame`, lines 53-63.  `now` is the reading
of `performance.now()`. -/
def processRawFrameTry (P : Platform) (s : OAKWebCodecsStream)
    (frameData : List Byte) (width height now : Nat) : Outcome Unit :=
  let src := FrameSource.rgba frameData width height
  match P.videoFrameError frameData width height with
  | some e => { obj := s, trace := [.newVideoFrame src (now * 1000)], result := .error e }
  | none =>
    let frame : VideoFrame := { source := src, timestamp := now * 1000 }
    match s.writer with
    | none =>
      { obj := s, trace := [.newVideoFrame src (now * 1000)], result := .error .TypeError }
    | some w =>
      let w1 := if w.closed then w else { w with chunks := w.chunks ++ [frame] }
      { obj := { s with writer := some w1 }
        trace := [.newVideoFrame src (now * 1000), .writerWrite frame, .frameClose frame]
        result := .ok () }

/-- The method `processRawFrame(frameData, width, height)`, lines 51-68: the
`try` block, and the `catch` that logs the error. -/
def processRawFrame (P : Platform) (s : OAKWebCodecsStream)
    (frameData : List Byte) (width height now : Nat) : Outcome Unit :=
  let r := processRawFrameTry P s frameData width height now
  match r.result with
  | .ok _ => { obj := r.obj, trace := r.trace, result := .ok () }
  | .error e =>
    { obj := r.obj
      trace := r.trace ++ [.consoleError "Error processing frame:" e]
      result := .ok () }

/-- The method `getMediaStreamTrack()`, lines 70-72. -/
def getMediaStreamTrack (s : OAKWebCodecsStream) : Option TrackGenerator :=
  s.trackGenerator

/-- The method `close()`, lines 74-84. -/
def close (s : OAKWebCodecsStream) : Outcome Unit :=
  let (s1, t1) :=
    match s.writer with
    | some w => ({ s with writer := some { w with closed := true } }, [Call.writerClose])
    | none => (s, [])
  match s1.encoder with
  | some .closed =>
    { obj := s1, trace := t1 ++ [.encoderClose], result := .error .InvalidStateError }
  | some _ =>
    let s2 := { s1 with encoder := some .closed }
    match s2.trackGenerator with
    | some _ =>
      { obj := { s2 with trackGenerator := some { stopped := true } }
        trace := t1 ++ [.encoderClose, .generatorStop]
        result := .ok () }
    | none => { obj := s2, trace := t1 ++ [.encoderClose], result := .ok () }
  | none =>
    match s1.trackGenerator with
    | some _ =>
      { obj := { s1 with trackGenerator := some { stopped := true } }
        trace := t1 ++ [.generatorStop]
        result := .ok () }
    | none => { obj := s1, trace := t1, result := .ok () }

/-- The handler installed on `oakWs.onmessage` by `startOAKWebCodecsStream`,
lines 93-104, run on the stream object `s` it closes over. -/
def onmessage (P : Platform) (s : OAKWebCodecsStream) (isOAKActive : Bool)
    (data : MessageData) (now : Nat) : Outcome Unit :=
  match data, isOAKActive with
  | .arrayBuffer buf, true =>
    match getUint32 buf 0 true with
    | .error e => { obj := s, trace := [], result := .error e }
    | .ok width =>
      match getUint32 buf 4 true with
      | .error e => { obj := s, trace := [], result := .error e }
      | .ok height => processRawFrame P s (slice buf 8) width height now
  | _, _ => { obj := s, trace := [], result := .ok () }

/-! ## `oak_direct_stream_example.js` -/

/-- The collaborators of `startOAKVideoDirectStream`.  `getUserMedia` is the
settlement of the awaited microphone request, `insertableStreamTrack` the
truthiness of `videoTrack.insertableStreamTrack`, the two `Error` fields the
exception raised by the generator constructor and by `getWriter()` (`none`
when they succeed), and `canvasMethod n` the completion of the `n`-th call
(counted from 0) of the fallback `startOAKVideoCanvasMethod()`.  Creating the
canvas, capturing it and constructing the `MediaStream` are taken to
succeed, as is `log`. -/
structure DirectEnv (ρ : Type) where
  getUserMedia : Except JsError (List Track)
  insertableStreamTrack : Bool
  generatorCtorError : Option JsError
  getWriterError : Option JsError
  canvasMethod : Nat → Except JsError ρ

/-- What `startOAKVideoDirectStream` leaves behind: the platform calls it made
and its completion; `.ok none` is a return of `undefined`. -/
structure DirectOutcome (ρ : Type) where
  trace : List Call
  result : Except JsError (Option ρ)

/-- The `try` block of `startOAKVideoDirectStream`, lines 6-55. -/
def startOAKVideoDirectStreamTry {ρ : Type} (E : DirectEnv ρ) : DirectOutcome ρ :=
  let t0 : List Call :=
    [.log "🔶 Starting OAK direct video stream...", .createCanvas 1280 720,
     .captureStream 30, .getUserMedia]
  match E.getUserMedia with
  | .error e => { trace := t0, result := .error e }
  | .ok audioTracks =>
    let t1 := t0 ++ [.assignLocalStream (Track.canvasVideo :: audioTracks)]
    if E.insertableStreamTrack then
      match E.generatorCtorError with
      | some e => { trace := t1 ++ [.newMediaStreamTrackGenerator], result := .error e }
      | none =>
        match E.getWriterError with
        | some e =>
          { trace := t1 ++ [.newMediaStreamTrackGenerator, .getWriter], result := .error e }
        | none =>
          { trace := t1 ++ [.newMediaStreamTrackGenerator, .getWriter,
                            .removeTrack .canvasVideo, .addTrack .generator, .setOnmessage,
                            .log "✅ OAK direct stream ready with Insertable Streams"]
            result := .ok none }
    else
      { trace := t1 ++ [.log "⚠️ Insertable Streams not supported, falling back to canvas",
                        .startOAKVideoCanvasMethod]
        result := (E.canvasMethod 0).map some }

/-- The function `startOAKVideoDirectStream()`, lines 4-62: the `try` block,
and the `catch` that logs the error and returns the fallback. -/
def startOAKVideoDirectStream {ρ : Type} (E : DirectEnv ρ) : DirectOutcome ρ :=
  let r := startOAKVideoDirectStreamTry E
  match r.result with
  | .ok v => { trace := r.trace, result := .ok v }
  | .error e =>
    { trace := r.trace ++ [.logError "❌ Error with direct stream: " e,
                           .startOAKVideoCanvasMethod]
      result := (E.canvasMethod (r.trace.count .startOAKVideoCanvasMethod)).map some }

/-- The image decoder and the frame constructor used by the direct-stream
handler: `decodeImage` is the bitmap `createImageBitmap` resolves to (`none`
when the promise is rejected), `bitmapFrameError` the exception raised by
`new VideoFrame(bitmap, ...)`, `none` when it succeeds. -/
structure DirectPlatform where
  decodeImage : List Byte → Option ImageBitmap
  bitmapFrameError : ImageBitmap → Option JsError

/-- What one message leaves behind in the direct-stream handler: the writer
`writerStream` and the platform calls made. -/
structure HandlerOutcome where
  writer : Writer
  trace : List Call
  deriving DecidableEq, Repr

/-- The handler installed on `oakWs.onmessage` by `startOAKVideoDirectStream`,
lines 37-48, together with the `then` callback it schedules; `w` is the
`writerStream` it closes over and `now` the reading of `performance.now()`
inside the callback. -/
def directOnmessage (D : DirectPlatform) (w : Writer) (isOAKActive : Bool)
    (data : MessageData) (now : Nat) : HandlerOutcome :=
  match data, isOAKActive with
  | .blob b, true =>
    match D.decodeImage b with
    | none => { writer := w, trace := [.createImageBitmap b] }
    | some bitmap =>
      match D.bitmapFrameError bitmap with
      | some _ =>
        { writer := w
          trace := [.createImageBitmap b, .newVideoFrame (.bitmap bitmap) (now * 1000)] }
      | none =>
        let frame : VideoFrame := { source := .bitmap bitmap, timestamp := now * 1000 }
        { writer := if w.closed then w else { w with chunks := w.chunks ++ [frame] }
          trace := [.createImageBitmap b, .newVideoFrame (.bitmap bitmap) (now * 1000),
                    .writerWrite frame, .bitmapClose bitmap] }
  | _, _ => { writer := w, trace := [] }

/-! ## Runs of several calls -/

/-- The arguments of one `processRawFrame` call with the clock reading. -/
structure FrameArgs where
  frameData : List Byte
  width : Nat
  height : Nat
  now : Nat
  deriving DecidableEq, Repr

/-- The object after the `processRawFrame` calls `calls`, in order. -/
def runFrames (P : Platform) (s : OAKWebCodecsStream) (calls : List FrameArgs) :
    OAKWebCodecsStream :=
  calls.foldl (fun st a => (processRawFrame P st a.frameData a.width a.height a.now).obj) s

/-- The object and the platform calls after the WebCodecs handler has handled
the messages `msgs` in order while `isOAKActive` is true.  An exception that
leaves the handler is reported by the event loop; the handler stays installed
and the next message is dispatched to it. -/
def handleAll (P : Platform) (s : OAKWebCodecsStream) :
    List (MessageData × Nat) → OAKWebCodecsStream × List Call
  | [] => (s, [])
  | m :: rest =>
    let r := onmessage P s true m.1 m.2
    let later := handleAll P r.obj rest
    (later.1, r.trace ++ later.2)

/-- A raw payload as the message event that carries it, with the clock reading
at which it is handled. -/
def rawMessage (m : List Byte × Nat) : MessageData × Nat :=
  (.arrayBuffer m.1, m.2)

/-- A raw payload that is dropped: shorter than the 8-byte header, or rejected
by the `VideoFrame` constructor. -/
def isMalformed (P : Platform) (buf : List Byte) : Bool :=
  match getUint32 buf 0 true, getUint32 buf 4 true with
  | .ok width, .ok height => (P.videoFrameError (slice buf 8) width height).isSome
  | _, _ => true

/-- The object a fresh `new OAKWebCodecsStream()` is after `initialize()`. -/
def openedStream (P : Platform) : OAKWebCodecsStream :=
  (initializeStream P constructor).obj

/-- The object after `initialize()`, the `processRawFrame` calls `pre` and then
`close()`. -/
def closedStream (P : Platform) (pre : List FrameArgs) : OAKWebCodecsStream :=
  (close (runFrames P (openedStream P) pre)).obj

/-! ## Concrete inputs -/

/-- A browser with full WebCodecs support whose `VideoFrame` constructor
rejects an empty coded size and a buffer too small for it. -/
def fullPlatform : Platform :=
  { hasVideoEncoder := true
    hasVideoDecoder := true
    hasMediaStreamTrackGenerator := true
    generatorCtorError := none
    getWriterError := none
    encoderCtorError := none
    configureError := none
    videoFrameError := fun data w h =>
      if w = 0 ∨ h = 0 ∨ data.length < w * h * 4 then some .TypeError else none }

/-- A browser with `VideoEncoder` but without `VideoDecoder`. -/
def noDecoderPlatform : Platform :=
  { fullPlatform with hasVideoDecoder := false }

/-- A browser whose `VideoEncoder` constructor throws. -/
def brokenEncoderPlatform : Platform :=
  { fullPlatform with encoderCtorError := some .TypeError }

/-- A page whose video track has no `insertableStreamTrack` property, whose
microphone request succeeds and whose canvas fallback returns `7`. -/
def noInsertableEnv : DirectEnv Nat :=
  { getUserMedia := .ok [.audio 0]
    insertableStreamTrack := false
    generatorCtorError := none
    getWriterError := none
    canvasMethod := fun _ => .ok 7 }

/-- A page whose video track has a truthy `insertableStreamTrack`, whose
microphone request succeeds and whose generator and writer are created. -/
def insertableEnv : DirectEnv Nat :=
  { getUserMedia := .ok [.audio 0]
    insertableStreamTrack := true
    generatorCtorError := none
    getWriterError := none
    canvasMethod := fun _ => .ok 7 }

/-- A complete PNG file of 70 bytes: signature, `IHDR` (1x1, 8-bit RGBA, not
interlaced), one `IDAT` with the zlib stream of the scanline `00 FF 00 00 FF`,
and `IEND`, each chunk with its CRC.  It decodes to one opaque red pixel. -/
def redPixelPng : List Byte :=
  [0x89, 0x50, 0x4E, 0x47, 0x0D, 0x0A, 0x1A, 0x0A,
   0x00, 0x00, 0x00, 0x0D, 0x49, 0x48, 0x44, 0x52,
   0x00, 0x00, 0x00, 0x01, 0x00, 0x00, 0x00, 0x01, 0x08, 0x06, 0x00, 0x00, 0x00,
   0x1F, 0x15, 0xC4, 0x89,
   0x00, 0x00, 0x00, 0x0D, 0x49, 0x44, 0x41, 0x54,
   0x78, 0xDA, 0x63, 0xF8, 0xCF, 0xC0, 0xF0, 0x1F, 0x00, 0x05, 0x00, 0x01, 0xFF,
   0x56, 0xC7, 0x2F, 0x0D,
   0x00, 0x00, 0x00, 0x00, 0x49, 0x45, 0x4E, 0x44, 0xAE, 0x42, 0x60, 0x82]

/-- The bitmap `redPixelPng` decodes to. -/
def redPixelBitmap : ImageBitmap :=
  { width := 1, height := 1, pixels := [255, 0, 0, 255] }

/-- An image decoder cut down to one file: `createImageBitmap` resolves
`redPixelPng` to `redPixelBitmap` and rejects every other blob, among them
the empty blob and the truncated JPEG `FF D8 FF D9`; the frame constructor
accepts the bitmap. -/
def pngDirectPlatform : DirectPlatform :=
  { decodeImage := fun b => if b = redPixelPng then some redPixelBitmap else none
    bitmapFrameError := fun _ => none }

/-- The header bytes `00 05 00 00 00 03 00 00`. -/
def sampleHeader : List Byte := [0x00, 0x05, 0x00, 0x00, 0x00, 0x03, 0x00, 0x00]

/-- One opaque RGBA pixel. -/
def onePixel : List Byte := [255, 0, 0, 255]

/-! ## Header parsing -/

theorem getUint32_le32_append (w : Nat) (rest : List Byte) (hw : w < 2 ^ 32) :
    getUint32 (le32 w ++ rest) 0 true = .ok w := by
  have h4 : 0 + 4 ≤ (le32 w ++ rest).length := by simp [le32]
  simp only [getUint32, h4, if_true]
  simp [le32]
  omega

theorem getUint32_le32_second (w h : Nat) (rest : List Byte) (hh : h < 2 ^ 32) :
    getUint32 (le32 w ++ le32 h ++ rest) 4 true = .ok h := by
  have h8 : 4 + 4 ≤ (le32 w ++ le32 h ++ rest).length := by simp [le32]
  simp only [getUint32, h8, if_true]
  simp [le32]
  omega

theorem slice_header (w h : Nat) (rest : List Byte) :
    slice (le32 w ++ le32 h ++ rest) 8 = rest := by
  simp [slice, le32]

theorem getUint32_short (buf : List Byte) (off : Nat) (le : Bool)
    (h : buf.length < off + 4) : getUint32 buf off le = .error .RangeError := by
  have : ¬ off + 4 ≤ buf.length := by omega
  simp [getUint32, this]

theorem onmessage_wellformed (P : Platform) (s : OAKWebCodecsStream)
    (w h : Nat) (pixels : List Byte) (now : Nat) (hw : w < 2 ^ 32) (hh : h < 2 ^ 32) :
    onmessage P s true (.arrayBuffer (le32 w ++ le32 h ++ pixels)) now
      = processRawFrame P s pixels w h now := by
  have h0 : getUint32 (le32 w ++ le32 h ++ pixels) 0 true = .ok w := by
    rw [List.append_assoc]; exact getUint32_le32_append w _ hw
  simp only [onmessage, h0, getUint32_le32_second w h pixels hh, slice_header]

theorem onmessage_short (P : Platform) (s : OAKWebCodecsStream) (buf : List Byte)
    (now : Nat) (h : buf.length < 8) :
    onmessage P s true (.arrayBuffer buf) now
      = { obj := s, trace := [], result := .error .RangeError } := by
  by_cases h4 : buf.length < 4
  · simp only [onmessage, getUint32_short buf 0 true (by omega)]
  · have h0 : 0 + 4 ≤ buf.length := by omega
    simp only [onmessage, getUint32_short buf 4 true (by omega)]
    simp [getUint32, h0]

/-! ## Claims about the raw-frame handler -/

/-- C1: while `isOAKActive` is true, a raw payload of length `8 + w*h*4` whose
first eight bytes are the little-endian encodings of the unsigned 32-bit
values `w` and `h` makes the WebCodecs handler read `w` and `h` from the header
and call `processRawFrame` with width `w`, height `h` and the `w*h*4` bytes
that follow the header, in order. -/
theorem C1_raw_payload_reaches_processRawFrame (P : Platform) (s : OAKWebCodecsStream)
    (w h : Nat) (payload : List Byte) (now : Nat)
    (hw : w < 2 ^ 32) (hh : h < 2 ^ 32)
    (hlen : payload.length = 8 + w * h * 4)
    (hhdr : payload.take 8 = le32 w ++ le32 h) :
    getUint32 payload 0 true = .ok w ∧
    getUint32 payload 4 true = .ok h ∧
    slice payload 8 = payload.drop 8 ∧
    (slice payload 8).length = w * h * 4 ∧
    onmessage P s true (.arrayBuffer payload) now
      = processRawFrame P s (payload.drop 8) w h now := by
  have hsplit : payload = le32 w ++ le32 h ++ payload.drop 8 := by
    rw [← hhdr]; exact (List.take_append_drop 8 payload).symm
  have hdrop : (payload.drop 8).length = w * h * 4 := by
    rw [List.length_drop, hlen]; omega
  refine ⟨?_, ?_, rfl, ?_, ?_⟩
  · rw [hsplit, List.append_assoc]; exact getUint32_le32_append w _ hw
  · rw [hsplit]; exact getUint32_le32_second w h _ hh
  · simpa [slice] using hdrop
  · conv_lhs => rw [hsplit]
    exact onmessage_wellformed P s w h _ now hw hh

/-- C1 at a 1x1 frame: header `01 00 00 00 01 00 00 00` and one pixel. -/
theorem C1_raw_payload_reaches_processRawFrame_witness :
    getUint32 (le32 1 ++ le32 1 ++ onePixel) 0 true = .ok 1 ∧
    getUint32 (le32 1 ++ le32 1 ++ onePixel) 4 true = .ok 1 ∧
    slice (le32 1 ++ le32 1 ++ onePixel) 8 = (le32 1 ++ le32 1 ++ onePixel).drop 8 ∧
    (slice (le32 1 ++ le32 1 ++ onePixel) 8).length = 1 * 1 * 4 ∧
    onmessage fullPlatform constructor true (.arrayBuffer (le32 1 ++ le32 1 ++ onePixel)) 0
      = processRawFrame fullPlatform constructor ((le32 1 ++ le32 1 ++ onePixel).drop 8) 1 1 0 :=
  C1_raw_payload_reaches_processRawFrame fullPlatform constructor 1 1
    (le32 1 ++ le32 1 ++ onePixel) 0 (by decide) (by decide) (by decide) (by decide)

/-- C2 as stated fails: with the header bytes `00 05 00 00 00 03 00 00` and 60
pixel bytes, the little-endian reads at offsets 0 and 4 do not give width 5
and height 3. -/
theorem C2_sample_header_is_not_5_by_3 :
    ¬ (getUint32 (sampleHeader ++ List.replicate 60 0) 0 true = .ok 5 ∧
       getUint32 (sampleHeader ++ List.replicate 60 0) 4 true = .ok 3) := by
  decide

/-- C2 amended: for the header bytes `00 05 00 00 00 03 00 00` followed by 60
pixel bytes, the little-endian reads at offsets 0 and 4 give width 1280 and
height 768, and these are the values the handler passes to
`processRawFrame`. -/
theorem C2_sample_header_is_1280_by_768 (P : Platform) (s : OAKWebCodecsStream)
    (pixels : List Byte) (now : Nat) (hlen : pixels.length = 60) :
    (sampleHeader ++ pixels).length = 68 ∧
    getUint32 (sampleHeader ++ pixels) 0 true = .ok 1280 ∧
    getUint32 (sampleHeader ++ pixels) 4 true = .ok 768 ∧
    onmessage P s true (.arrayBuffer (sampleHeader ++ pixels)) now
      = processRawFrame P s pixels 1280 768 now := by
  have hhdr : sampleHeader = le32 1280 ++ le32 768 := by decide
  refine ⟨by simp [sampleHeader, hlen], ?_, ?_, ?_⟩
  · rw [hhdr, List.append_assoc]
    exact getUint32_le32_append 1280 _ (by decide)
  · rw [hhdr]; exact getUint32_le32_second 1280 768 _ (by decide)
  · rw [hhdr]; exact onmessage_wellformed P s 1280 768 pixels now (by decide) (by decide)

/-- C2 amended, at 60 zero pixel bytes. -/
theorem C2_sample_header_is_1280_by_768_witness :
    (List.replicate 60 (0 : Byte)).length = 60 ∧
    (sampleHeader ++ List.replicate 60 0).length = 68 ∧
    getUint32 (sampleHeader ++ List.replicate 60 0) 0 true = .ok 1280 ∧
    getUint32 (sampleHeader ++ List.replicate 60 0) 4 true = .ok 768 ∧
    onmessage fullPlatform constructor true
        (.arrayBuffer (sampleHeader ++ List.replicate 60 0)) 0
      = processRawFrame fullPlatform constructor (List.replicate 60 0) 1280 768 0 :=
  ⟨by decide,
   C2_sample_header_is_1280_by_768 fullPlatform constructor (List.replicate 60 0) 0 (by decide)⟩

/-- C3: while `isOAKActive` is true, a raw payload shorter than 8 bytes makes
the header read fail: the handler is left by the `RangeError` of
`getUint32` (the malformed-header error of the code), it makes no platform
call, so `processRawFrame` and the writer are not reached, and the stream
object with its written frames is unchanged. -/
theorem C3_short_payload_fails_without_write (P : Platform) (s : OAKWebCodecsStream)
    (buf : List Byte) (now : Nat) (hshort : buf.length < 8) :
    (onmessage P s true (.arrayBuffer buf) now).result = .error .RangeError ∧
    (onmessage P s true (.arrayBuffer buf) now).trace = [] ∧
    (∀ f, Call.writerWrite f ∉ (onmessage P s true (.arrayBuffer buf) now).trace) ∧
    (onmessage P s true (.arrayBuffer buf) now).obj = s := by
  rw [onmessage_short P s buf now hshort]
  simp

/-- C3 at a 7-byte payload on an initialized stream. -/
theorem C3_short_payload_fails_without_write_witness :
    ([1, 0, 0, 0, 1, 0, 0] : List Byte).length < 8 ∧
    (onmessage fullPlatform (initializeStream fullPlatform constructor).obj true
        (.arrayBuffer [1, 0, 0, 0, 1, 0, 0]) 0).result = .error .RangeError ∧
    (onmessage fullPlatform (initializeStream fullPlatform constructor).obj true
        (.arrayBuffer [1, 0, 0, 0, 1, 0, 0]) 0).trace = [] ∧
    (∀ f, Call.writerWrite f ∉
      (onmessage fullPlatform (initializeStream fullPlatform constructor).obj true
        (.arrayBuffer [1, 0, 0, 0, 1, 0, 0]) 0).trace) ∧
    (onmessage fullPlatform (initializeStream fullPlatform constructor).obj true
        (.arrayBuffer [1, 0, 0, 0, 1, 0, 0]) 0).obj
      = (initializeStream fullPlatform constructor).obj :=
  ⟨by decide,
   C3_short_payload_fails_without_write fullPlatform
     (initializeStream fullPlatform constructor).obj [1, 0, 0, 0, 1, 0, 0] 0 (by decide)⟩

/-- C4: when `isOAKActive` is false, whatever the message carries (Blob,
ArrayBuffer, text or anything else), the WebCodecs handler and the
direct-stream handler make no platform call, hence no write, and leave the
stream object and the writer with its written frames as they were. -/
theorem C4_inactive_flag_blocks_every_write (P : Platform) (D : DirectPlatform)
    (s : OAKWebCodecsStream) (w : Writer) (data : MessageData) (now : Nat) :
    (onmessage P s false data now).trace = [] ∧
    (onmessage P s false data now).obj = s ∧
    (onmessage P s false data now).result = .ok () ∧
    (directOnmessage D w false data now).trace = [] ∧
    (directOnmessage D w false data now).writer = w := by
  cases data <;> simp [onmessage, directOnmessage]

/-! ## Lifecycle lemmas -/

theorem initializeStream_ok_true (P : Platform)
    (h : (initializeStream P constructor).result = .ok true) :
    openedStream P =
      { encoder := some .configured, decoder := none,
        trackGenerator := some { stopped := false },
        writer := some { closed := false, chunks := [] } } := by
  rcases P with ⟨e, d, g, ge, we, ee, ce, vf⟩
  cases e <;> cases d <;> cases g <;> cases ge <;> cases we <;> cases ee <;> cases ce <;>
    simp_all [openedStream, initializeStream, initializeTry, constructor]

theorem processRawFrame_result (P : Platform) (s : OAKWebCodecsStream)
    (d : List Byte) (w h now : Nat) : (processRawFrame P s d w h now).result = .ok () := by
  simp only [processRawFrame]
  cases (processRawFrameTry P s d w h now).result <;> rfl

theorem processRawFrame_open (P : Platform) (s : OAKWebCodecsStream) (wr : Writer)
    (d : List Byte) (w h now : Nat) (hw : s.writer = some wr) (ho : wr.closed = false) :
    ∃ wr2, (processRawFrame P s d w h now).obj = { s with writer := some wr2 } ∧
      wr2.closed = false := by
  rcases s with ⟨enc, dec, gen, swr⟩
  simp only at hw
  subst hw
  cases hv : P.videoFrameError d w h
  · refine ⟨{ wr with chunks := wr.chunks ++ [⟨.rgba d w h, now * 1000⟩] }, ?_, ho⟩
    simp [processRawFrame, processRawFrameTry, hv, ho]
  · exact ⟨wr, by simp [processRawFrame, processRawFrameTry, hv], ho⟩

theorem processRawFrame_closed (P : Platform) (s : OAKWebCodecsStream) (wr : Writer)
    (d : List Byte) (w h now : Nat) (hw : s.writer = some wr) (hc : wr.closed = true) :
    (processRawFrame P s d w h now).obj = s := by
  rcases s with ⟨enc, dec, gen, swr⟩
  simp only at hw
  subst hw
  cases hv : P.videoFrameError d w h <;>
    simp [processRawFrame, processRawFrameTry, hv, hc]

theorem runFrames_open (P : Platform) (calls : List FrameArgs) (s : OAKWebCodecsStream)
    (wr : Writer) (hw : s.writer = some wr) (ho : wr.closed = false) :
    ∃ wr2, runFrames P s calls = { s with writer := some wr2 } ∧ wr2.closed = false := by
  induction calls generalizing s wr with
  | nil => exact ⟨wr, by simp [runFrames, ← hw], ho⟩
  | cons a rest ih =>
    obtain ⟨w1, h1, ho1⟩ := processRawFrame_open P s wr a.frameData a.width a.height a.now hw ho
    obtain ⟨w2, h2, ho2⟩ :=
      ih (processRawFrame P s a.frameData a.width a.height a.now).obj w1 (by rw [h1]) ho1
    refine ⟨w2, ?_, ho2⟩
    have hstep : runFrames P s (a :: rest)
        = runFrames P (processRawFrame P s a.frameData a.width a.height a.now).obj rest := rfl
    rw [hstep, h2, h1]

theorem runFrames_closed (P : Platform) (calls : List FrameArgs) (s : OAKWebCodecsStream)
    (wr : Writer) (hw : s.writer = some wr) (hc : wr.closed = true) :
    runFrames P s calls = s := by
  induction calls with
  | nil => rfl
  | cons a rest ih =>
    have hstep : runFrames P s (a :: rest)
        = runFrames P (processRawFrame P s a.frameData a.width a.height a.now).obj rest := rfl
    rw [hstep, processRawFrame_closed P s wr _ _ _ _ hw hc, ih]

theorem processRawFrame_encoder (P : Platform) (s : OAKWebCodecsStream)
    (d : List Byte) (w h now : Nat) :
    (processRawFrame P s d w h now).obj.encoder = s.encoder := by
  rcases s with ⟨enc, dec, gen, wr⟩
  cases hv : P.videoFrameError d w h <;> cases wr <;>
    simp [processRawFrame, processRawFrameTry, hv]

theorem runFrames_encoder (P : Platform) (calls : List FrameArgs) (s : OAKWebCodecsStream) :
    (runFrames P s calls).encoder = s.encoder := by
  induction calls generalizing s with
  | nil => rfl
  | cons a rest ih =>
    have hstep : runFrames P s (a :: rest)
        = runFrames P (processRawFrame P s a.frameData a.width a.height a.now).obj rest := rfl
    rw [hstep, ih, processRawFrame_encoder]

theorem openedStream_encoder (P : Platform) : (openedStream P).encoder ≠ some .closed := by
  rcases P with ⟨e, d, g, ge, we, ee, ce, vf⟩
  cases e <;> cases d <;> cases g <;> cases ge <;> cases we <;> cases ee <;> cases ce <;>
    simp [openedStream, initializeStream, initializeTry, constructor]

theorem close_live (s : OAKWebCodecsStream) (h : s.encoder ≠ some .closed) :
    (close s).trace
      = (if s.writer.isSome then [Call.writerClose] else []) ++
        (if s.encoder.isSome then [Call.encoderClose] else []) ++
        (if s.trackGenerator.isSome then [Call.generatorStop] else []) ∧
    (close s).result = .ok () := by
  revert h
  rcases s with ⟨enc, dec, gen, wr⟩
  rcases enc with _ | _ | _ | _ <;> cases gen <;> cases wr <;> simp [close]

/-! ## Claims about teardown -/

/-- C5 as stated fails: on a successfully initialized stream, after one
successful write and `close()`, the next `processRawFrame` call returns
normally; no error of any kind reaches the caller. -/
theorem C5_write_after_close_does_not_fail :
    (initializeStream fullPlatform constructor).result = .ok true ∧
    (runFrames fullPlatform (openedStream fullPlatform) [⟨onePixel, 1, 1, 0⟩]).writer
      = some { closed := false, chunks := [⟨.rgba onePixel 1 1, 0⟩] } ∧
    (close (runFrames fullPlatform (openedStream fullPlatform) [⟨onePixel, 1, 1, 0⟩])).result
      = .ok () ∧
    (processRawFrame fullPlatform (closedStream fullPlatform [⟨onePixel, 1, 1, 0⟩])
      onePixel 1 1 1).result = .ok () ∧
    ¬ ∃ e, (processRawFrame fullPlatform (closedStream fullPlatform [⟨onePixel, 1, 1, 0⟩])
      onePixel 1 1 1).result = .error e := by
  refine ⟨by decide, by decide, by decide, by decide, ?_⟩
  rintro ⟨e, he⟩
  rw [processRawFrame_result] at he
  cases he

/-- C5 amended: on a successfully initialized stream, after any `processRawFrame`
calls `pre` and a `close()`, which itself succeeds, every later
`processRawFrame` call (after any further calls `post`) returns normally:
the rejected write is not raised to the caller.  The frame is not delivered:
the object is left exactly as `close()` left it, and its writer holds the frames
written before the close and nothing more. -/
theorem C5_write_after_close_is_dropped (P : Platform) (pre post : List FrameArgs)
    (a : FrameArgs) (hinit : (initializeStream P constructor).result = .ok true) :
    (close (runFrames P (openedStream P) pre)).result = .ok () ∧
    runFrames P (closedStream P pre) post = closedStream P pre ∧
    (processRawFrame P (runFrames P (closedStream P pre) post)
      a.frameData a.width a.height a.now).result = .ok () ∧
    (processRawFrame P (runFrames P (closedStream P pre) post)
      a.frameData a.width a.height a.now).obj = closedStream P pre ∧
    (closedStream P pre).writer
      = (runFrames P (openedStream P) pre).writer.map (fun w => { w with closed := true }) ∧
    ∃ w, (closedStream P pre).writer = some w ∧ w.closed = true := by
  have hopen := initializeStream_ok_true P hinit
  obtain ⟨w1, h1, -⟩ := runFrames_open P pre (openedStream P) { closed := false, chunks := [] }
    (by rw [hopen]) rfl
  have hrun : runFrames P (openedStream P) pre =
      { encoder := some .configured, decoder := none,
        trackGenerator := some { stopped := false }, writer := some w1 } := by
    rw [h1, hopen]
  have hclosed : closedStream P pre =
      { encoder := some .closed, decoder := none,
        trackGenerator := some { stopped := true },
        writer := some { w1 with closed := true } } := by
    simp [closedStream, hrun, close]
  have hwr : (closedStream P pre).writer = some { w1 with closed := true } := by rw [hclosed]
  have hpost : runFrames P (closedStream P pre) post = closedStream P pre :=
    runFrames_closed P post _ _ hwr rfl
  refine ⟨?_, hpost, processRawFrame_result _ _ _ _ _ _, ?_, ?_, ⟨_, hwr, rfl⟩⟩
  · simp [hrun, close]
  · rw [hpost]; exact processRawFrame_closed P _ _ _ _ _ _ hwr rfl
  · rw [hwr, hrun]; rfl

/-- C5 amended, with one write before the close, one dropped write after it and
a further write. -/
theorem C5_write_after_close_is_dropped_witness :
    (initializeStream fullPlatform constructor).result = .ok true ∧
    (close (runFrames fullPlatform (openedStream fullPlatform) [⟨onePixel, 1, 1, 0⟩])).result
      = .ok () ∧
    runFrames fullPlatform (closedStream fullPlatform [⟨onePixel, 1, 1, 0⟩])
        [⟨onePixel, 1, 1, 1⟩]
      = closedStream fullPlatform [⟨onePixel, 1, 1, 0⟩] ∧
    (processRawFrame fullPlatform
      (runFrames fullPlatform (closedStream fullPlatform [⟨onePixel, 1, 1, 0⟩])
        [⟨onePixel, 1, 1, 1⟩])
      onePixel 1 1 2).result = .ok () ∧
    (processRawFrame fullPlatform
      (runFrames fullPlatform (closedStream fullPlatform [⟨onePixel, 1, 1, 0⟩])
        [⟨onePixel, 1, 1, 1⟩])
      onePixel 1 1 2).obj = closedStream fullPlatform [⟨onePixel, 1, 1, 0⟩] ∧
    (closedStream fullPlatform [⟨onePixel, 1, 1, 0⟩]).writer
      = (runFrames fullPlatform (openedStream fullPlatform) [⟨onePixel, 1, 1, 0⟩]).writer.map
          (fun w => { w with closed := true }) ∧
    ∃ w, (closedStream fullPlatform [⟨onePixel, 1, 1, 0⟩]).writer = some w ∧ w.closed = true :=
  ⟨by decide,
   C5_write_after_close_is_dropped fullPlatform [⟨onePixel, 1, 1, 0⟩] [⟨onePixel, 1, 1, 1⟩]
     ⟨onePixel, 1, 1, 2⟩ (by decide)⟩

/-- C6 as stated fails: on a successfully initialized stream the second
`close()` calls `writer.close()` and `encoder.close()` again, and the call on
the already closed encoder throws, so the second `close()` is left by an
`InvalidStateError`. -/
theorem C6_second_close_releases_again :
    (initializeStream fullPlatform constructor).result = .ok true ∧
    (close (openedStream fullPlatform)).trace
      = [.writerClose, .encoderClose, .generatorStop] ∧
    (close (openedStream fullPlatform)).result = .ok () ∧
    (close (close (openedStream fullPlatform)).obj).trace = [.writerClose, .encoderClose] ∧
    (close (close (openedStream fullPlatform)).obj).result = .error .InvalidStateError := by
  decide

/-- C6 amended: `close()` never clears a field, so for every state of the
object the second `close()` repeats the release calls of the non-null fields:
`writer.close()` if `writer` is non-null, then `encoder.close()` if `encoder` is
non-null, which throws `InvalidStateError` on the encoder that is closed by
then, so that `trackGenerator.stop()` is repeated only when `encoder` is null.
The second call is free of errors exactly when `encoder` is null, and makes no
release call exactly when writer, encoder and generator are all null; in that
state neither call releases anything or fails. -/
theorem C6_second_close_repeats_release (s : OAKWebCodecsStream) :
    ((close s).obj.writer.isSome = s.writer.isSome ∧
     (close s).obj.encoder.isSome = s.encoder.isSome ∧
     (close s).obj.trackGenerator.isSome = s.trackGenerator.isSome) ∧
    (close (close s).obj).trace
      = (if s.writer.isSome then [Call.writerClose] else []) ++
        (if s.encoder.isSome then [Call.encoderClose] else []) ++
        (if s.encoder.isNone && s.trackGenerator.isSome then [Call.generatorStop] else []) ∧
    (close (close s).obj).result
      = (if s.encoder.isSome then .error .InvalidStateError else .ok ()) ∧
    ((close (close s).obj).trace = [] ↔
      (s.writer = none ∧ s.encoder = none ∧ s.trackGenerator = none)) ∧
    ((s.writer = none ∧ s.encoder = none ∧ s.trackGenerator = none) →
      (close s).trace = [] ∧ (close s).result = .ok () ∧ (close s).obj = s) := by
  rcases s with ⟨enc, dec, gen, wr⟩
  rcases enc with _ | _ | _ | _ <;> cases gen <;> cases wr <;> simp [close]

/-- C6 amended, on a fresh object, where every field is null. -/
theorem C6_second_close_repeats_release_witness :
    (constructor.writer = none ∧ constructor.encoder = none ∧
      constructor.trackGenerator = none) ∧
    ((close constructor).trace = [] ∧ (close constructor).result = .ok () ∧
      (close constructor).obj = constructor) ∧
    (close (close constructor).obj).trace = [] :=
  ⟨⟨rfl, rfl, rfl⟩,
   (C6_second_close_repeats_release constructor).2.2.2.2 ⟨rfl, rfl, rfl⟩,
   (C6_second_close_repeats_release constructor).2.2.2.1.mpr ⟨rfl, rfl, rfl⟩⟩

/-- C10 as stated fails: on an initialized stream that was closed once, writer,
encoder and generator are all non-null, yet `close()` calls only
`writer.close()` and `encoder.close()`; the latter throws on the closed
encoder, `close()` is left by `InvalidStateError`, and `trackGenerator.stop()`
is skipped although the generator is not null. -/
theorem C10_close_on_closed_encoder_skips_stop :
    ((closedStream fullPlatform []).writer.isSome = true ∧
      (closedStream fullPlatform []).encoder.isSome = true ∧
      (closedStream fullPlatform []).trackGenerator.isSome = true) ∧
    (close (closedStream fullPlatform [])).trace = [.writerClose, .encoderClose] ∧
    Call.generatorStop ∉ (close (closedStream fullPlatform [])).trace ∧
    (close (closedStream fullPlatform [])).result = .error .InvalidStateError ∧
    ¬ ((close (closedStream fullPlatform [])).trace
          = [.writerClose, .encoderClose, .generatorStop] ∧
        (close (closedStream fullPlatform [])).result = .ok ()) := by
  decide

/-- C10 amended: for every state of the object, `close()` attempts
`writer.close()`, `encoder.close()` and `trackGenerator.stop()` in this order
and never calls one whose field is null.  It calls every non-null one and
raises no error when the encoder is not already closed, which holds for every
object made by `new`, `initialize()` (whatever its outcome) and any
`processRawFrame` calls; on an already closed encoder `encoder.close()` throws
`InvalidStateError` and `stop()` is not reached.  Afterwards the writer is
closed, the encoder is closed, the generator is stopped when `stop()` was
reached, and no field was cleared.  On a fresh object, and on one whose
`initialize()` failed on the capability check, all fields are null and
`close()` makes no call and raises no error.  On an object whose `initialize()`
failed in the encoder constructor, after the writer was obtained, `close()`
closes the writer and stops the generator and does not touch the encoder. -/
theorem C10_close_releases_in_order (s : OAKWebCodecsStream) (P : Platform)
    (pre : List FrameArgs) :
    ((close s).trace
        = (if s.writer.isSome then [Call.writerClose] else []) ++
          (if s.encoder.isSome then [Call.encoderClose] else []) ++
          (if s.encoder = some .closed then []
           else if s.trackGenerator.isSome then [Call.generatorStop] else []) ∧
      (close s).result
        = (if s.encoder = some .closed then .error .InvalidStateError else .ok ()) ∧
      (close s).obj
        = { encoder := s.encoder.map (fun _ => CodecState.closed)
            decoder := s.decoder
            trackGenerator :=
              if s.encoder = some .closed then s.trackGenerator
              else s.trackGenerator.map (fun _ => { stopped := true })
            writer := s.writer.map (fun w => { w with closed := true }) }) ∧
    (s.encoder ≠ some .closed →
      (close s).trace
        = (if s.writer.isSome then [Call.writerClose] else []) ++
          (if s.encoder.isSome then [Call.encoderClose] else []) ++
          (if s.trackGenerator.isSome then [Call.generatorStop] else []) ∧
      (close s).result = .ok ()) ∧
    ((close (runFrames P (openedStream P) pre)).trace
        = (if (runFrames P (openedStream P) pre).writer.isSome
            then [Call.writerClose] else []) ++
          (if (runFrames P (openedStream P) pre).encoder.isSome
            then [Call.encoderClose] else []) ++
          (if (runFrames P (openedStream P) pre).trackGenerator.isSome
            then [Call.generatorStop] else []) ∧
      (close (runFrames P (openedStream P) pre)).result = .ok ()) ∧
    ((close constructor).trace = [] ∧ (close constructor).result = .ok ()) ∧
    ((P.hasVideoEncoder = false ∨ P.hasVideoDecoder = false ∨
        P.hasMediaStreamTrackGenerator = false) →
      (initializeStream P constructor).result = .ok false ∧
      openedStream P = constructor ∧
      (close (openedStream P)).trace = [] ∧
      (close (openedStream P)).result = .ok ()) ∧
    ((P.hasVideoEncoder = true ∧ P.hasVideoDecoder = true ∧
        P.hasMediaStreamTrackGenerator = true) →
      P.generatorCtorError = none → P.getWriterError = none →
      P.encoderCtorError.isSome = true →
      (initializeStream P constructor).result = .ok false ∧
      (openedStream P).writer = some { closed := false, chunks := [] } ∧
      (openedStream P).trackGenerator = some { stopped := false } ∧
      (openedStream P).encoder = none ∧
      (close (openedStream P)).trace = [.writerClose, .generatorStop] ∧
      (close (openedStream P)).result = .ok ()) := by
  refine ⟨?_, close_live s, ?_, by decide, ?_, ?_⟩
  · rcases s with ⟨enc, dec, gen, wr⟩
    rcases enc with _ | _ | _ | _ <;> cases gen <;> cases wr <;> simp [close]
  · apply close_live
    rw [runFrames_encoder]
    exact openedStream_encoder P
  · rcases P with ⟨e, d, g, ge, we, ee, ce, vf⟩
    rintro (h | h | h) <;> simp only at h <;> subst h <;>
      simp [openedStream, initializeStream, initializeTry, constructor, close]
  · rcases P with ⟨e, d, g, ge, we, ee, ce, vf⟩
    rintro ⟨h1, h2, h3⟩ h4 h5 h6
    simp only at h1 h2 h3 h4 h5 h6
    subst h1 h2 h3 h4 h5
    cases ee with
    | none => simp at h6
    | some err => simp [openedStream, initializeStream, initializeTry, constructor, close]

/-- C10 amended, on an initialized stream, on a browser without `VideoDecoder`
and on a browser whose encoder constructor throws. -/
theorem C10_close_releases_in_order_witness :
    ((openedStream fullPlatform).encoder ≠ some .closed ∧
      (close (openedStream fullPlatform)).trace
        = (if (openedStream fullPlatform).writer.isSome then [Call.writerClose] else []) ++
          (if (openedStream fullPlatform).encoder.isSome then [Call.encoderClose] else []) ++
          (if (openedStream fullPlatform).trackGenerator.isSome
            then [Call.generatorStop] else []) ∧
      (close (openedStream fullPlatform)).result = .ok ()) ∧
    ((close (openedStream fullPlatform)).trace
        = [.writerClose, .encoderClose, .generatorStop] ∧
      (close (openedStream fullPlatform)).obj
        = { encoder := some .closed, decoder := none,
            trackGenerator := some { stopped := true },
            writer := some { closed := true, chunks := [] } }) ∧
    ((noDecoderPlatform.hasVideoEncoder = false ∨ noDecoderPlatform.hasVideoDecoder = false ∨
        noDecoderPlatform.hasMediaStreamTrackGenerator = false) ∧
      (initializeStream noDecoderPlatform constructor).result = .ok false ∧
      openedStream noDecoderPlatform = constructor ∧
      (close (openedStream noDecoderPlatform)).trace = [] ∧
      (close (openedStream noDecoderPlatform)).result = .ok ()) ∧
    ((brokenEncoderPlatform.hasVideoEncoder = true ∧
        brokenEncoderPlatform.hasVideoDecoder = true ∧
        brokenEncoderPlatform.hasMediaStreamTrackGenerator = true) ∧
      brokenEncoderPlatform.generatorCtorError = none ∧
      brokenEncoderPlatform.getWriterError = none ∧
      brokenEncoderPlatform.encoderCtorError.isSome = true ∧
      (initializeStream brokenEncoderPlatform constructor).result = .ok false ∧
      (openedStream brokenEncoderPlatform).writer = some { closed := false, chunks := [] } ∧
      (openedStream brokenEncoderPlatform).trackGenerator = some { stopped := false } ∧
      (openedStream brokenEncoderPlatform).encoder = none ∧
      (close (openedStream brokenEncoderPlatform)).trace = [.writerClose, .generatorStop] ∧
      (close (openedStream brokenEncoderPlatform)).result = .ok ()) :=
  ⟨⟨by decide,
    (C10_close_releases_in_order (openedStream fullPlatform) fullPlatform []).2.1
      (by decide)⟩,
   by decide,
   ⟨by decide,
    (C10_close_releases_in_order constructor noDecoderPlatform []).2.2.2.2.1 (by decide)⟩,
   ⟨by decide, by decide, by decide, by decide,
    (C10_close_releases_in_order constructor brokenEncoderPlatform []).2.2.2.2.2
      (by decide) (by decide) (by decide) (by decide)⟩⟩

/-! ## Claims about strategy selection -/

/-- C7: when `videoTrack.insertableStreamTrack` is falsy,
`startOAKVideoDirectStream` constructs no `MediaStreamTrackGenerator`, obtains
no writer, neither removes nor adds a track of `localStream`, does not assign
`oakWs.onmessage`, calls `startOAKVideoCanvasMethod()` and completes with the
completion of its last call of it.  When one of `VideoEncoder`, `VideoDecoder`
and `MediaStreamTrackGenerator` is absent, `initialize()` constructs no
generator, writer or encoder (its only call is the error log), leaves the
object as it was and returns `false`. -/
theorem C7_missing_capability_takes_fallback {ρ : Type} (E : DirectEnv ρ)
    (P : Platform) (s : OAKWebCodecsStream) :
    (E.insertableStreamTrack = false →
      Call.newMediaStreamTrackGenerator ∉ (startOAKVideoDirectStream E).trace ∧
      Call.getWriter ∉ (startOAKVideoDirectStream E).trace ∧
      (∀ t, Call.removeTrack t ∉ (startOAKVideoDirectStream E).trace) ∧
      (∀ t, Call.addTrack t ∉ (startOAKVideoDirectStream E).trace) ∧
      Call.setOnmessage ∉ (startOAKVideoDirectStream E).trace ∧
      1 ≤ (startOAKVideoDirectStream E).trace.count .startOAKVideoCanvasMethod ∧
      (startOAKVideoDirectStream E).result
        = (E.canvasMethod
            ((startOAKVideoDirectStream E).trace.count .startOAKVideoCanvasMethod - 1)).map
            some) ∧
    ((P.hasVideoEncoder = false ∨ P.hasVideoDecoder = false ∨
        P.hasMediaStreamTrackGenerator = false) →
      (initializeStream P s).result = .ok false ∧
      (initializeStream P s).obj = s ∧
      (initializeStream P s).trace
        = [.consoleError "❌ WebCodecs initialization failed:"
            (.Error "WebCodecs not supported")] ∧
      Call.newMediaStreamTrackGenerator ∉ (initializeStream P s).trace ∧
      Call.getWriter ∉ (initializeStream P s).trace ∧
      Call.newVideoEncoder ∉ (initializeStream P s).trace) := by
  constructor
  · intro hflag
    rcases E with ⟨gum, flag, ge, we, cm⟩
    simp only at hflag
    subst hflag
    cases gum with
    | error e =>
      simp [startOAKVideoDirectStream, startOAKVideoDirectStreamTry]
    | ok tracks =>
      cases hc : cm 0 with
      | error e =>
        simp [startOAKVideoDirectStream, startOAKVideoDirectStreamTry, hc, Except.map]
      | ok v =>
        simp [startOAKVideoDirectStream, startOAKVideoDirectStreamTry, hc, Except.map]
  · rcases P with ⟨e, d, g, ge, we, ee, ce, vf⟩
    rintro (h | h | h) <;> simp only at h <;> subst h <;>
      simp [initializeStream, initializeTry]

/-- C7 on a page without insertable streams and on a browser without
`VideoDecoder`. -/
theorem C7_missing_capability_takes_fallback_witness :
    (noInsertableEnv.insertableStreamTrack = false ∧
      Call.newMediaStreamTrackGenerator ∉ (startOAKVideoDirectStream noInsertableEnv).trace ∧
      Call.getWriter ∉ (startOAKVideoDirectStream noInsertableEnv).trace ∧
      (∀ t, Call.removeTrack t ∉ (startOAKVideoDirectStream noInsertableEnv).trace) ∧
      (∀ t, Call.addTrack t ∉ (startOAKVideoDirectStream noInsertableEnv).trace) ∧
      Call.setOnmessage ∉ (startOAKVideoDirectStream noInsertableEnv).trace ∧
      1 ≤ (startOAKVideoDirectStream noInsertableEnv).trace.count
            .startOAKVideoCanvasMethod ∧
      (startOAKVideoDirectStream noInsertableEnv).result
        = (noInsertableEnv.canvasMethod
            ((startOAKVideoDirectStream noInsertableEnv).trace.count
              .startOAKVideoCanvasMethod - 1)).map some) ∧
    (startOAKVideoDirectStream noInsertableEnv).result = .ok (some 7) ∧
    ((noDecoderPlatform.hasVideoEncoder = false ∨ noDecoderPlatform.hasVideoDecoder = false ∨
        noDecoderPlatform.hasMediaStreamTrackGenerator = false) ∧
      (initializeStream noDecoderPlatform constructor).result = .ok false ∧
      (initializeStream noDecoderPlatform constructor).obj = constructor ∧
      (initializeStream noDecoderPlatform constructor).trace
        = [.consoleError "❌ WebCodecs initialization failed:"
            (.Error "WebCodecs not supported")] ∧
      Call.newMediaStreamTrackGenerator ∉ (initializeStream noDecoderPlatform constructor).trace ∧
      Call.getWriter ∉ (initializeStream noDecoderPlatform constructor).trace ∧
      Call.newVideoEncoder ∉ (initializeStream noDecoderPlatform constructor).trace) :=
  ⟨⟨rfl,
    (C7_missing_capability_takes_fallback noInsertableEnv noDecoderPlatform constructor).1 rfl⟩,
   by decide,
   ⟨by decide,
    (C7_missing_capability_takes_fallback noInsertableEnv noDecoderPlatform constructor).2
      (by decide)⟩⟩

/-! ## Claims about frame release -/

theorem processRawFrame_closes_written_frame (P : Platform) (s : OAKWebCodecsStream)
    (d : List Byte) (w h now : Nat) (f : VideoFrame)
    (hf : Call.writerWrite f ∈ (processRawFrame P s d w h now).trace) :
    (processRawFrame P s d w h now).trace
      = [.newVideoFrame (.rgba d w h) (now * 1000), .writerWrite f, .frameClose f] := by
  rcases s with ⟨enc, dec, gen, wr⟩
  cases hv : P.videoFrameError d w h <;> cases wr <;>
    simp_all [processRawFrame, processRawFrameTry]

theorem directOnmessage_never_closes_frame (D : DirectPlatform) (w : Writer)
    (isOAKActive : Bool) (data : MessageData) (now : Nat) (f : VideoFrame) :
    Call.frameClose f ∉ (directOnmessage D w isOAKActive data now).trace := by
  cases data <;> cases isOAKActive <;> simp [directOnmessage]
  rename_i b
  cases hd : D.decodeImage b with
  | none => simp
  | some bitmap => cases hb : D.bitmapFrameError bitmap <;> simp [hb]

/-- C8 fails in the direct-stream handler: on a page where
`startOAKVideoDirectStream` installs the handler (truthy
`insertableStreamTrack`, setup without exception), for every Blob that
`createImageBitmap` decodes and whose bitmap the frame constructor accepts,
the handler, run while `isOAKActive` is true, constructs the frame, hands it to
`writerStream.write`, which accepts it when the writer is open, and then
closes the bitmap: these are all its calls, and `frame.close()` is not among
them for any frame. -/
theorem C8_direct_handler_leaves_frame_open {ρ : Type} (E : DirectEnv ρ)
    (tracks : List Track) (D : DirectPlatform) (w : Writer) (b : List Byte)
    (bitmap : ImageBitmap) (now : Nat)
    (hmedia : E.getUserMedia = .ok tracks)
    (hflag : E.insertableStreamTrack = true)
    (hgen : E.generatorCtorError = none) (hwriter : E.getWriterError = none)
    (hdec : D.decodeImage b = some bitmap)
    (hctor : D.bitmapFrameError bitmap = none) :
    Call.setOnmessage ∈ (startOAKVideoDirectStream E).trace ∧
    (directOnmessage D w true (.blob b) now).trace
      = [.createImageBitmap b,
         .newVideoFrame (.bitmap bitmap) (now * 1000),
         .writerWrite ⟨.bitmap bitmap, now * 1000⟩,
         .bitmapClose bitmap] ∧
    (directOnmessage D w true (.blob b) now).writer
      = (if w.closed then w
         else { w with chunks := w.chunks ++ [⟨.bitmap bitmap, now * 1000⟩] }) ∧
    Call.frameClose ⟨.bitmap bitmap, now * 1000⟩ ∉
      (directOnmessage D w true (.blob b) now).trace ∧
    (∀ f, Call.frameClose f ∉ (directOnmessage D w true (.blob b) now).trace) := by
  refine ⟨?_, ?_, ?_, ?_, ?_⟩
  · rcases E with ⟨gum, flag, ge, we, cm⟩
    simp only at hmedia hflag hgen hwriter
    subst hmedia hflag hgen hwriter
    simp [startOAKVideoDirectStream, startOAKVideoDirectStreamTry]
  · simp [directOnmessage, hdec, hctor]
  · simp [directOnmessage, hdec, hctor]
  · exact directOnmessage_never_closes_frame D w true (.blob b) now _
  · exact directOnmessage_never_closes_frame D w true (.blob b) now

/-- C8 at the failing input: the PNG file `redPixelPng` arrives as a Blob, on a
page with insertable streams, while `isOAKActive` is true and the writer is
open. The frame is written and stays open. -/
theorem C8_direct_handler_leaves_frame_open_witness :
    (insertableEnv.getUserMedia = .ok [.audio 0] ∧
      insertableEnv.insertableStreamTrack = true ∧
      insertableEnv.generatorCtorError = none ∧
      insertableEnv.getWriterError = none ∧
      pngDirectPlatform.decodeImage redPixelPng = some redPixelBitmap ∧
      pngDirectPlatform.bitmapFrameError redPixelBitmap = none) ∧
    (directOnmessage pngDirectPlatform { closed := false, chunks := [] } true
        (.blob redPixelPng) 5).writer.chunks
      = [⟨.bitmap redPixelBitmap, 5000⟩] ∧
    (Call.setOnmessage ∈ (startOAKVideoDirectStream insertableEnv).trace ∧
      (directOnmessage pngDirectPlatform { closed := false, chunks := [] } true
          (.blob redPixelPng) 5).trace
        = [.createImageBitmap redPixelPng,
           .newVideoFrame (.bitmap redPixelBitmap) (5 * 1000),
           .writerWrite ⟨.bitmap redPixelBitmap, 5 * 1000⟩,
           .bitmapClose redPixelBitmap] ∧
      (directOnmessage pngDirectPlatform { closed := false, chunks := [] } true
          (.blob redPixelPng) 5).writer
        = (if ({ closed := false, chunks := [] } : Writer).closed
            then { closed := false, chunks := [] }
           else { ({ closed := false, chunks := [] } : Writer) with
                  chunks := ({ closed := false, chunks := [] } : Writer).chunks
                    ++ [⟨.bitmap redPixelBitmap, 5 * 1000⟩] }) ∧
      Call.frameClose ⟨.bitmap redPixelBitmap, 5 * 1000⟩ ∉
        (directOnmessage pngDirectPlatform { closed := false, chunks := [] } true
          (.blob redPixelPng) 5).trace ∧
      (∀ f, Call.frameClose f ∉
        (directOnmessage pngDirectPlatform { closed := false, chunks := [] } true
          (.blob redPixelPng) 5).trace)) :=
  ⟨by decide, by decide,
   C8_direct_handler_leaves_frame_open insertableEnv [.audio 0] pngDirectPlatform
     { closed := false, chunks := [] } redPixelPng redPixelBitmap 5
     rfl rfl rfl rfl (by decide) rfl⟩

/-! ## Claims about dropped frames -/

theorem onmessage_malformed (P : Platform) (s : OAKWebCodecsStream) (buf : List Byte)
    (now : Nat) (h : isMalformed P buf = true) :
    (onmessage P s true (.arrayBuffer buf) now).obj = s ∧
    ∀ f, Call.writerWrite f ∉ (onmessage P s true (.arrayBuffer buf) now).trace := by
  simp only [isMalformed] at h
  cases h0 : getUint32 buf 0 true with
  | error e => simp [onmessage, h0]
  | ok width =>
    cases h4 : getUint32 buf 4 true with
    | error e => simp [onmessage, h0, h4]
    | ok height =>
      rw [h0, h4] at h
      cases hv : P.videoFrameError (slice buf 8) width height with
      | none => simp [hv] at h
      | some e => simp [onmessage, h0, h4, processRawFrame, processRawFrameTry, hv]

theorem handleAll_append (P : Platform) (xs ys : List (MessageData × Nat))
    (s : OAKWebCodecsStream) :
    handleAll P s (xs ++ ys)
      = ((handleAll P (handleAll P s xs).1 ys).1,
         (handleAll P s xs).2 ++ (handleAll P (handleAll P s xs).1 ys).2) := by
  induction xs generalizing s with
  | nil => simp [handleAll]
  | cons m rest ih => simp [handleAll, ih]

theorem handleAll_malformed (P : Platform) (bad : List (List Byte × Nat))
    (s : OAKWebCodecsStream) (hbad : ∀ m ∈ bad, isMalformed P m.1 = true) :
    (handleAll P s (bad.map rawMessage)).1 = s ∧
    ∀ f, Call.writerWrite f ∉ (handleAll P s (bad.map rawMessage)).2 := by
  induction bad with
  | nil => simp [handleAll]
  | cons m rest ih =>
    obtain ⟨hobj, htr⟩ := onmessage_malformed P s m.1 m.2 (hbad m (List.mem_cons_self _ _))
    obtain ⟨ihobj, ihtr⟩ := ih (fun x hx => hbad x (List.mem_cons_of_mem _ hx))
    constructor
    · simp only [List.map_cons, handleAll, rawMessage, hobj]
      exact ihobj
    · intro f
      simp only [List.map_cons, handleAll, rawMessage, hobj, List.mem_append, not_or]
      exact ⟨htr f, ihtr f⟩

/-- C9: while `isOAKActive` is true, any number of malformed raw payloads
(shorter than 8 bytes, or rejected by the frame constructor) leave the stream
object as it was and write nothing.  A well-formed payload (`w`, `h` in the
header, `w*h*4` pixel bytes) that arrives after them is handled exactly as if
they had never arrived: `processRawFrame` runs on the unchanged object with
width `w`, height `h` and the pixel bytes, the object ends in the same state,
and when the writer is open and the constructor accepts the frame, the frame
`(pixels, w, h)` is appended to the written frames. -/
theorem C9_dropped_frames_do_not_affect_later_frames (P : Platform)
    (s : OAKWebCodecsStream) (bad : List (List Byte × Nat)) (w h : Nat)
    (pixels : List Byte) (now : Nat)
    (hbad : ∀ m ∈ bad, isMalformed P m.1 = true)
    (hw : w < 2 ^ 32) (hh : h < 2 ^ 32) (hlen : pixels.length = w * h * 4) :
    (handleAll P s (bad.map rawMessage)).1 = s ∧
    (∀ f, Call.writerWrite f ∉ (handleAll P s (bad.map rawMessage)).2) ∧
    (slice (le32 w ++ le32 h ++ pixels) 8).length = w * h * 4 ∧
    onmessage P (handleAll P s (bad.map rawMessage)).1 true
        (.arrayBuffer (le32 w ++ le32 h ++ pixels)) now
      = processRawFrame P s pixels w h now ∧
    (handleAll P s (bad.map rawMessage ++ [rawMessage (le32 w ++ le32 h ++ pixels, now)])).1
      = (handleAll P s [rawMessage (le32 w ++ le32 h ++ pixels, now)]).1 ∧
    (∀ wr, s.writer = some wr → wr.closed = false → P.videoFrameError pixels w h = none →
      (handleAll P s
          (bad.map rawMessage ++ [rawMessage (le32 w ++ le32 h ++ pixels, now)])).1.writer
        = some { wr with chunks := wr.chunks ++ [⟨.rgba pixels w h, now * 1000⟩] } ∧
      (processRawFrame P s pixels w h now).trace
        = [.newVideoFrame (.rgba pixels w h) (now * 1000),
           .writerWrite ⟨.rgba pixels w h, now * 1000⟩,
           .frameClose ⟨.rgba pixels w h, now * 1000⟩]) := by
  obtain ⟨hobj, htr⟩ := handleAll_malformed P bad s hbad
  have hgood := onmessage_wellformed P s w h pixels now hw hh
  have hfinal :
      (handleAll P s (bad.map rawMessage ++ [rawMessage (le32 w ++ le32 h ++ pixels, now)])).1
        = (processRawFrame P s pixels w h now).obj := by
    rw [handleAll_append, hobj]
    simp only [handleAll, rawMessage, hgood]
  refine ⟨hobj, htr, ?_, ?_, ?_, ?_⟩
  · rw [slice_header]; exact hlen
  · rw [hobj]; exact hgood
  · rw [hfinal]
    simp only [handleAll, rawMessage, hgood]
  · intro wr hwr hopen hok
    rw [hfinal]
    rcases s with ⟨enc, dec, gen, swr⟩
    simp only at hwr
    subst hwr
    simp [processRawFrame, processRawFrameTry, hok, hopen]

/-- C9 at a 1x1 frame that arrives after a 3-byte payload and a payload whose
header announces more pixels than it carries. -/
theorem C9_dropped_frames_do_not_affect_later_frames_witness :
    (∀ m ∈ [(([1, 0, 0] : List Byte), 0), (le32 2 ++ le32 2 ++ onePixel, 1)],
      isMalformed fullPlatform m.1 = true) ∧
    onePixel.length = 1 * 1 * 4 ∧
    (handleAll fullPlatform (openedStream fullPlatform)
      ([(([1, 0, 0] : List Byte), 0), (le32 2 ++ le32 2 ++ onePixel, 1)].map rawMessage
        ++ [rawMessage (le32 1 ++ le32 1 ++ onePixel, 2)])).1.writer
      = some { closed := false, chunks := [⟨.rgba onePixel 1 1, 2000⟩] } ∧
    ((handleAll fullPlatform (openedStream fullPlatform)
        ([(([1, 0, 0] : List Byte), 0), (le32 2 ++ le32 2 ++ onePixel, 1)].map rawMessage)).1
      = openedStream fullPlatform ∧
    (∀ f, Call.writerWrite f ∉ (handleAll fullPlatform (openedStream fullPlatform)
        ([(([1, 0, 0] : List Byte), 0), (le32 2 ++ le32 2 ++ onePixel, 1)].map rawMessage)).2) ∧
    (slice (le32 1 ++ le32 1 ++ onePixel) 8).length = 1 * 1 * 4 ∧
    onmessage fullPlatform (handleAll fullPlatform (openedStream fullPlatform)
        ([(([1, 0, 0] : List Byte), 0), (le32 2 ++ le32 2 ++ onePixel, 1)].map rawMessage)).1
        true (.arrayBuffer (le32 1 ++ le32 1 ++ onePixel)) 2
      = processRawFrame fullPlatform (openedStream fullPlatform) onePixel 1 1 2 ∧
    (handleAll fullPlatform (openedStream fullPlatform)
      ([(([1, 0, 0] : List Byte), 0), (le32 2 ++ le32 2 ++ onePixel, 1)].map rawMessage
        ++ [rawMessage (le32 1 ++ le32 1 ++ onePixel, 2)])).1
      = (handleAll fullPlatform (openedStream fullPlatform)
          [rawMessage (le32 1 ++ le32 1 ++ onePixel, 2)]).1 ∧
    (∀ wr, (openedStream fullPlatform).writer = some wr → wr.closed = false →
      fullPlatform.videoFrameError onePixel 1 1 = none →
      (handleAll fullPlatform (openedStream fullPlatform)
        ([(([1, 0, 0] : List Byte), 0), (le32 2 ++ le32 2 ++ onePixel, 1)].map rawMessage
          ++ [rawMessage (le32 1 ++ le32 1 ++ onePixel, 2)])).1.writer
        = some { wr with chunks := wr.chunks ++ [⟨.rgba onePixel 1 1, 2 * 1000⟩] } ∧
      (processRawFrame fullPlatform (openedStream fullPlatform) onePixel 1 1 2).trace
        = [.newVideoFrame (.rgba onePixel 1 1) (2 * 1000),
           .writerWrite ⟨.rgba onePixel 1 1, 2 * 1000⟩,
           .frameClose ⟨.rgba onePixel 1 1, 2 * 1000⟩])) :=
  ⟨by decide, by decide, by decide,
   C9_dropped_frames_do_not_affect_later_frames fullPlatform (openedStream fullPlatform)
     [(([1, 0, 0] : List Byte), 0), (le32 2 ++ le32 2 ++ onePixel, 1)] 1 1 onePixel 2
     (by decide) (by decide) (by decide) (by decide)⟩

end OAK
